import Mathlib

/-!
Verification development for the FIT activity-analysis program
(fit_analyze_gui_v4.py).  The per-sample data model and the numeric
pipeline (reconstruction passes, trapezoidal work integration, summary
metrics) are embedded shallowly: pandas columns become lists, absent
values (NaN / None) become `Option`, and float arithmetic is idealised
as exact rational (or, for the trigonometric great-circle step, real)
arithmetic.  The altitude gap-fill pass (source lines 109-110) and the
local-time string rendering (lines 186-190) are not modelled; no stated
property concerns them.
-/

/-- Adjacent (consecutive-index) pairs of a list; models the pairings that
pandas `diff` / `shift` produce. -/
def adjPairs {α : Type} : List α → List (α × α)
  | a :: b :: rest => (a, b) :: adjPairs (b :: rest)
  | _ => []

/-- pandas `Series.diff().fillna(0)` on a column with no absent values:
first entry 0, then consecutive differences. -/
def diffFill0 (xs : List ℚ) : List ℚ :=
  match xs with
  | [] => []
  | _ :: _ => 0 :: (adjPairs xs).map (fun p => p.2 - p.1)

/-- pandas `Series.diff().fillna(0)` on an optional column: a difference with
an absent endpoint is NaN and is filled with 0; the first entry is 0. -/
def optDiffFill0 (xs : List (Option ℚ)) : List ℚ :=
  match xs with
  | [] => []
  | _ :: _ => 0 :: (adjPairs xs).map (fun p =>
      match p.1, p.2 with
      | some a, some b => b - a
      | _, _ => 0)

/-- pandas `Series.shift(1).fillna(0)`. -/
def shiftFill0 (xs : List ℚ) : List ℚ :=
  match xs with
  | [] => []
  | x :: rest => 0 :: (x :: rest).dropLast

/-- Three-list pointwise zip, used to mirror the elementwise pandas product
in the work integrator. -/
def zipWith3 {α β γ δ : Type} (f : α → β → γ → δ) : List α → List β → List γ → List δ
  | a :: as, b :: bs, c :: cs => f a b c :: zipWith3 f as bs cs
  | _, _, _ => []

/-- pandas `notna().sum()`: number of non-absent entries. -/
def notnaCount : List (Option ℚ) → ℕ
  | [] => 0
  | o :: rest => (if o.isSome then 1 else 0) + notnaCount rest

/-- pandas `isna().sum()`: number of absent entries. -/
def naCount : List (Option ℚ) → ℕ
  | [] => 0
  | o :: rest => (if o.isNone then 1 else 0) + naCount rest

/-- Minimum of a column (0 on the empty list; only applied to non-empty
columns, mirroring `Series.min()` on a non-empty frame). -/
def colMinD (xs : List ℚ) : ℚ := match xs with | [] => 0 | x :: r => r.foldl min x

/-- Maximum of a column (0 on the empty list).  A Python quirk is idealised
here: on an all-NaN column `max() or 0.0` keeps NaN, which has no rational
counterpart; none of the verified properties depends on that value. -/
def colMaxD (xs : List ℚ) : ℚ := match xs with | [] => 0 | x :: r => r.foldl max x

/-- Python `round(x, n)` (round half to even), idealised over ℚ. -/
def pyRoundInt (x : ℚ) : ℤ :=
  let f := ⌊x⌋
  if x - f < 1 / 2 then f
  else if 1 / 2 < x - f then f + 1
  else if f % 2 = 0 then f else f + 1

/-- Python `round(x, n)` at `n` decimal digits. -/
def pyRound (n : ℕ) (x : ℚ) : ℚ := (pyRoundInt (x * 10 ^ n) : ℚ) / 10 ^ n

/-- One telemetry record row as built by parse_fit_records (source lines
77-88).  The timestamp is UTC seconds; a row always carries one (parse
keeps rows without a timestamp, an edge case outside every claim).  All
other fields are optional: absent is `none`, never zero. -/
structure Sample where
  timestamp : ℚ
  latitude_deg : Option ℚ
  longitude_deg : Option ℚ
  altitude_m : Option ℚ
  speed_m_s : Option ℚ
  distance_m : Option ℚ
  heart_rate_bpm : Option ℚ
  cadence_rpm : Option ℚ
  power_w : Option ℚ
  temperature_c : Option ℚ
deriving DecidableEq

/-- pandas `Series.diff()` on an optional column: first entry NaN, and a
difference with an absent endpoint is NaN. -/
def seriesDiff (xs : List (Option ℚ)) : List (Option ℚ) :=
  match xs with
  | [] => []
  | _ :: _ => none :: (adjPairs xs).map (fun p =>
      match p.1, p.2 with
      | some a, some b => some (b - a)
      | _, _ => none)

/-- positive_gain (source lines 61-65): sum of the strictly positive
consecutive differences of the series; NaN differences are skipped by the
`diffs > 0` selection. -/
def positive_gain (xs : List (Option ℚ)) : ℚ :=
  if xs = [] then 0
  else (((seriesDiff xs).filterMap id).filter (fun v => decide (0 < v))).sum

/-- integrate_work_joules (source lines 124-131): trapezoidal integration of
power over elapsed time via the pandas pipeline fillna / diff / shift. -/
def integrate_work_joules (df : List Sample) : ℚ :=
  if df = [] ∨ notnaCount (df.map (·.power_w)) < 2 then 0
  else
    let power := (df.map (·.power_w)).map (fun o => o.getD 0)
    let dt := diffFill0 (df.map (·.timestamp))
    let p_prev := shiftFill0 power
    (zipWith3 (fun p q t => ((p + q) / 2) * t) power p_prev dt).sum

/-- The trapezoidal formula as the specification states it: sum over
consecutive sample pairs of ((power[i] + power[i-1]) / 2) * dt, with absent
power treated as 0. -/
def trapWork (df : List Sample) : ℚ :=
  ((adjPairs df).map (fun p =>
    (((p.2.power_w).getD 0 + (p.1.power_w).getD 0) / 2) *
      (p.2.timestamp - p.1.timestamp))).sum

/-- Build a sample from timestamp and the nine optional fields, in the
column order of parse_fit_records. -/
def mkSample (t : ℚ) (lat lon alt spd dist hr cad pw tmp : Option ℚ) : Sample :=
  ⟨t, lat, lon, alt, spd, dist, hr, cad, pw, tmp⟩

/-- Two-sample series of the descending-with-one-power-reading scenario:
t = 0 s, altitude 100 m, power absent; t = 10 s, altitude 95 m, power 200 W. -/
def exDf1 : List Sample :=
  [mkSample 0 none none (some 100) none none none none none none,
   mkSample 10 none none (some 95) none none none none (some 200) none]

/-- Sorted two-sample series with powers 100 W and 200 W, 10 s apart. -/
def exDf9 : List Sample :=
  [mkSample 0 none none none none none none none (some 100) none,
   mkSample 10 none none none none none none none (some 200) none]

/-- Trigger of the speed-reconstruction pass (source line 102):
`isna().mean() > 0.5`, i.e. more than half of the speed values absent. -/
def speedReconTrigger (df : List Sample) : Prop :=
  df.length < 2 * naCount (df.map (·.speed_m_s))

instance (df : List Sample) : Decidable (speedReconTrigger df) := by
  unfold speedReconTrigger; infer_instance

/-- Reconstructed speed values (source lines 103-106): distance delta over
time delta, with a zero time delta masked to NaN and filled with 0 (as is
the always-zero first delta). -/
def speedReconSrc (df : List Sample) : List ℚ :=
  let dt := diffFill0 (df.map (·.timestamp))
  let ds := optDiffFill0 (df.map (·.distance_m))
  List.zipWith (fun dsi dti => if dti = 0 then 0 else dsi / dti) ds dt

/-- The speed column after the reconstruction check (source lines 102-107):
replaced wholesale when the trigger fires, untouched otherwise. -/
def speedAfterRecon (df : List Sample) : List (Option ℚ) :=
  if speedReconTrigger df then (speedReconSrc df).map some
  else df.map (·.speed_m_s)

/-- Reconstructed speed of one consecutive pair: (distance delta)/(time
delta), and 0 when the time delta is exactly zero. -/
def speedStep (p : Sample × Sample) : ℚ :=
  let dt := p.2.timestamp - p.1.timestamp
  let ds := match p.1.distance_m, p.2.distance_m with
    | some a, some b => b - a
    | _, _ => 0
  if dt = 0 then 0 else ds / dt

/-- Python math.atan2, written out by quadrant. -/
noncomputable def atan2 (y x : ℝ) : ℝ :=
  if 0 < x then Real.arctan (y / x)
  else if x < 0 ∧ 0 ≤ y then Real.arctan (y / x) + Real.pi
  else if x < 0 then Real.arctan (y / x) - Real.pi
  else if 0 < y then Real.pi / 2
  else if y < 0 then -(Real.pi / 2)
  else 0

/-- Python math.radians. -/
noncomputable def radians (x : ℝ) : ℝ := x * (Real.pi / 180)

/-- A value read from one cell of a pandas coordinate column via `df.at`
(source lines 97-98).  pandas keeps a column built only from Python None as
an object column, so the cell reads back as None; a column that holds at
least one float is converted to float64, and its absent cells read back as
float NaN; otherwise the cell is a real float. -/
inductive PyFloat where
  | pynone
  | nan
  | val (x : ℝ)

/-- Is the cell the Python None of an object column? -/
def isPyNone : PyFloat → Bool
  | .pynone => true
  | _ => false

/-- Is the cell a float64 NaN? -/
def isNaN : PyFloat → Bool
  | .nan => true
  | _ => false

/-- The real value of a present float cell (0 in the other cases, which the
guards of haversine_m rule out before this is consulted). -/
def toReal : PyFloat → ℝ
  | .val x => x
  | _ => 0

/-- `df.at[i, col]` (source lines 97-98): the whole column decides the
dtype.  An entirely absent column is object dtype and yields None; in a
column with at least one float, an absent entry yields NaN. -/
def pyAt (col : List (Option ℚ)) (o : Option ℚ) : PyFloat :=
  if col.all (fun c => c.isNone) then .pynone
  else
    match o with
    | none => .nan
    | some q => .val (q : ℝ)

/-- IEEE float value with NaN modelled as `none`. -/
abbrev NFloat : Type := Option ℝ

/-- IEEE float addition: any NaN operand poisons the sum. -/
def nanAdd : NFloat → NFloat → NFloat
  | some a, some b => some (a + b)
  | none, _ => none
  | some _, none => none

/-- haversine_m (source lines 51-58): great-circle distance with Earth
radius 6371000 m.  The `None in (...)` check on line 52 fires only on the
Python None of an object column and returns 0.0; a float NaN argument slips
past it, and then every step of the arithmetic (radians, sin, cos, sqrt,
atan2, products and sums) propagates NaN per IEEE-754, so the function
returns NaN — the second branch.  With four real arguments the value is the
real haversine formula.  (Real.sqrt of a negative argument is 0 here where
Python math.sqrt would raise; no stated property touches that case.) -/
noncomputable def haversine_m (lat1 lon1 lat2 lon2 : PyFloat) : NFloat :=
  if isPyNone lat1 || isPyNone lon1 || isPyNone lat2 || isPyNone lon2 then some 0
  else if isNaN lat1 || isNaN lon1 || isNaN lat2 || isNaN lon2 then none
  else
    let la1 := toReal lat1
    let lo1 := toReal lon1
    let la2 := toReal lat2
    let lo2 := toReal lon2
    let R : ℝ := 6371000
    let phi1 := radians la1
    let phi2 := radians la2
    let dphi := radians (la2 - la1)
    let dlmb := radians (lo2 - lo1)
    let a := Real.sin (dphi / 2) ^ 2 +
      Real.cos phi1 * Real.cos phi2 * Real.sin (dlmb / 2) ^ 2
    some (2 * R * atan2 (Real.sqrt a) (Real.sqrt (1 - a)))

/-- The haversine step between two consecutive samples of a frame (source
lines 97-98): the four coordinates are read through `df.at`, whose None/NaN
behaviour depends on the whole latitude and longitude columns. -/
noncomputable def havStep (df : List Sample) (p : Sample × Sample) : NFloat :=
  haversine_m
    (pyAt (df.map (·.latitude_deg)) p.1.latitude_deg)
    (pyAt (df.map (·.longitude_deg)) p.1.longitude_deg)
    (pyAt (df.map (·.latitude_deg)) p.2.latitude_deg)
    (pyAt (df.map (·.longitude_deg)) p.2.longitude_deg)

/-- Trigger of the distance-reconstruction pass (source line 94): every
distance absent, or the maximum observed distance exactly zero.  (On an
all-absent column the Python `max` is NaN and `(nan or 0) == 0` is false,
so the second disjunct requires at least one present value.) -/
def distanceReconTrigger (df : List Sample) : Prop :=
  (∀ s ∈ df, s.distance_m = none) ∨
    (df.filterMap (·.distance_m) ≠ [] ∧ colMaxD (df.filterMap (·.distance_m)) = 0)

instance (df : List Sample) : Decidable (distanceReconTrigger df) := by
  unfold distanceReconTrigger; infer_instance

/-- Reconstructed distance column (source lines 95-99): running sum of the
haversine steps, starting from 0.0.  `(d or 0.0)` is the identity on every
float, NaN included (NaN is truthy), so the step is the haversine value
itself and a NaN step turns this and every later cumulative distance into
NaN. -/
noncomputable def reconDistances (df : List Sample) : List NFloat :=
  List.scanl (fun acc p => nanAdd acc (havStep df p)) (some 0) (adjPairs df)

/-- The distance column after the reconstruction check (source lines
94-100), as IEEE floats with NaN as `none` (in a float64 column an absent
entry and a NaN are the same thing).  Only applied to non-empty frames, as
in the source (line 91). -/
noncomputable def distanceAfterRecon (df : List Sample) : List NFloat :=
  if distanceReconTrigger df then reconDistances df
  else df.map (fun s => (s.distance_m).map (fun q => (q : ℝ)))

/-- Session/lap summary mappings (parse_sessions_and_laps): raw pass-through
data, accepted by compute_metrics but never used by it (source line 135). -/
def AggregateBundle : Type :=
  List (List (String × Option ℚ)) × List (List (String × Option ℚ))

/-- pandas mean over the non-absent entries, guarded by `notna().any()`
(source lines 155-161): an entirely absent column gives `none`. -/
def colMeanOpt (xs : List (Option ℚ)) : Option ℚ :=
  if xs.any (fun o => o.isSome) then
    some ((xs.filterMap id).sum / ((xs.filterMap id).length : ℚ))
  else none

/-- pandas max over the non-absent entries, guarded by `notna().any()`. -/
def colMaxOpt (xs : List (Option ℚ)) : Option ℚ :=
  if xs.any (fun o => o.isSome) then some (colMaxD (xs.filterMap id)) else none

/-- hr_avg (source line 155): mean heart rate over the non-absent values.
compute_metrics computes it but never writes it into the summary dict. -/
def hr_avg (df : List Sample) : Option ℚ := colMeanOpt (df.map (·.heart_rate_bpm))

/-- hr_max (source line 156): maximum heart rate over the non-absent values.
compute_metrics computes it but never writes it into the summary dict. -/
def hr_max (df : List Sample) : Option ℚ := colMaxOpt (df.map (·.heart_rate_bpm))

/-- temp_avg (source line 161): mean temperature over the non-absent values.
compute_metrics computes it but never writes it into the summary dict. -/
def temp_avg (df : List Sample) : Option ℚ := colMeanOpt (df.map (·.temperature_c))

/-- The summary dict of compute_metrics (source lines 192-220), numeric
fields only: the timezone constant and the Berlin-local string rendering of
the two time bounds are not modelled, so start and end stay UTC seconds.
The dict has no heart-rate and no temperature entry. -/
structure SummaryRecord where
  start_time : ℚ
  end_time : ℚ
  elapsed_time_s : ℚ
  moving_time_s : ℚ
  distance_m : ℚ
  avg_speed_kmh : ℚ
  max_speed_kmh : ℚ
  elevation_gain_m : ℚ
  avg_cadence_rpm : Option ℚ
  max_cadence_rpm : Option ℚ
  avg_power_w : Option ℚ
  max_power_w : Option ℚ
  rider_work_Wh : ℚ
  rider_work_J : ℚ
  motor_energy_Wh : Option ℚ
  total_work_Wh : ℚ
  total_work_J : ℚ
  calories_mechanical_kcal : ℚ
  calories_food_est_kcal : Option ℚ
  calories_food_est_range_kcal : Option (ℚ × ℚ)
  wall_energy_kWh_input : Option ℚ
  wall2battery_eff_pct_input : Option ℚ
  muscle_eff_pct_input : Option ℚ
deriving DecidableEq

/-- Python truthiness of an optional float: present and nonzero. -/
def truthy : Option ℚ → Bool
  | none => false
  | some x => x != 0

/-- Motor energy (source lines 168-170): `wall * 1000 * (eff / 100)` Wh,
computed only when both inputs are supplied and truthy. -/
def motorEnergyWh (wall eff : Option ℚ) : Option ℚ :=
  if truthy wall && truthy eff then
    some ((wall.getD 0) * 1000 * ((eff.getD 0) / 100))
  else none

/-- Food-calorie estimate at the user-supplied muscular efficiency (source
lines 179-180): computed only when the efficiency is supplied and truthy. -/
def caloriesFoodOpt (calories_mech : ℚ) (muscle : Option ℚ) : Option ℚ :=
  if truthy muscle then some (calories_mech / ((muscle.getD 0) / 100)) else none

/-- Reference calorie range at the fixed 20 % and 25 % efficiencies (source
lines 181-184): assigned inside the same truthiness guard as the user
estimate, each entry rounded to one decimal. -/
def caloriesRangeOpt (calories_mech : ℚ) (muscle : Option ℚ) : Option (ℚ × ℚ) :=
  if truthy muscle then
    some (pyRound 1 (calories_mech / 0.20), pyRound 1 (calories_mech / 0.25))
  else none

/-- Python `round(x, n) if x else None` (source lines 209 and 214). -/
def truthyRound (n : ℕ) (x : Option ℚ) : Option ℚ :=
  if truthy x then some (pyRound n (x.getD 0)) else none

/-- Result of the metrics calculator: either the sentinel no-data record
(source line 140) or a summary. -/
inductive MetricsResult where
  | noData
  | summary (s : SummaryRecord)
deriving DecidableEq

/-- Projection used to state facts about the summary branch. -/
def getSummary : MetricsResult → Option SummaryRecord
  | .noData => none
  | .summary s => some s

/-- compute_metrics (source lines 135-222).  The aggregate bundle parameter
is accepted but unused, as in the source.  Python truthiness guards
(`if wall_energy_kWh and eff_wall2batt_pct`, `if muscle_eff_pct`,
`if motor_energy_Wh`, `if calories_food`) are modelled as the value being
present and nonzero.  The heart-rate and temperature aggregates the source
computes on lines 155-156 and 161 are the standalone defs hr_avg, hr_max
and temp_avg above; they never reach the summary dict.  The source default
for muscle_eff_pct is `some 24`; callers here always pass it explicitly. -/
def compute_metrics (df : List Sample) (agg : AggregateBundle)
    (wall_energy_kWh eff_wall2batt_pct muscle_eff_pct : Option ℚ) : MetricsResult :=
  if df = [] then .noData
  else
    let start_ts := colMinD (df.map (·.timestamp))
    let end_ts := colMaxD (df.map (·.timestamp))
    let elapsed_s := end_ts - start_ts
    let moving_s := (diffFill0 ((df.filter
      (fun s => decide ((0.5 : ℚ) < (s.speed_m_s).getD 0))).map (·.timestamp))).sum
    let total_dist_m := colMaxD (df.filterMap (·.distance_m))
    let avg_speed_m_s := if 0 < elapsed_s then total_dist_m / elapsed_s else 0
    let max_speed_m_s := colMaxD (df.filterMap (·.speed_m_s))
    let ascent_m := positive_gain (df.map (·.altitude_m))
    let cad_avg := colMeanOpt (df.map (·.cadence_rpm))
    let cad_max := colMaxOpt (df.map (·.cadence_rpm))
    let pwr_avg := colMeanOpt (df.map (·.power_w))
    let pwr_max := colMaxOpt (df.map (·.power_w))
    let rider_work_J := integrate_work_joules df
    let rider_work_Wh := rider_work_J / 3600
    let motor_energy_Wh := motorEnergyWh wall_energy_kWh eff_wall2batt_pct
    let total_work_Wh := rider_work_Wh + motor_energy_Wh.getD 0
    let total_work_J := total_work_Wh * 3600
    let calories_mech := rider_work_J / 4184
    let calories_food := caloriesFoodOpt calories_mech muscle_eff_pct
    let calories_range := caloriesRangeOpt calories_mech muscle_eff_pct
    .summary {
      start_time := start_ts
      end_time := end_ts
      elapsed_time_s := pyRound 1 elapsed_s
      moving_time_s := pyRound 1 moving_s
      distance_m := pyRound 1 total_dist_m
      avg_speed_kmh := pyRound 2 (avg_speed_m_s * 3.6)
      max_speed_kmh := pyRound 2 (max_speed_m_s * 3.6)
      elevation_gain_m := pyRound 1 ascent_m
      avg_cadence_rpm := cad_avg.map (pyRound 1)
      max_cadence_rpm := cad_max.map (pyRound 1)
      avg_power_w := pwr_avg.map (pyRound 1)
      max_power_w := pwr_max.map (pyRound 1)
      rider_work_Wh := pyRound 2 rider_work_Wh
      rider_work_J := pyRound 1 rider_work_J
      motor_energy_Wh := truthyRound 2 motor_energy_Wh
      total_work_Wh := pyRound 2 total_work_Wh
      total_work_J := pyRound 1 total_work_J
      calories_mechanical_kcal := pyRound 1 calories_mech
      calories_food_est_kcal := truthyRound 1 calories_food
      calories_food_est_range_kcal := calories_range
      wall_energy_kWh_input := wall_energy_kWh
      wall2battery_eff_pct_input := eff_wall2batt_pct
      muscle_eff_pct_input := muscle_eff_pct }

/-- Erase the heart-rate and temperature fields of a sample. -/
def clearHrTemp (s : Sample) : Sample :=
  { s with heart_rate_bpm := none, temperature_c := none }

/-- Time span of the moving-filtered subsequence (speed above 0.5 m/s):
last such timestamp minus first, 0 when no sample moves.  This is the value
the source's filtered pandas diff actually sums to. -/
def movingSpan (df : List Sample) : ℚ :=
  match (df.filter (fun s => decide ((0.5 : ℚ) < (s.speed_m_s).getD 0))).map
      (·.timestamp) with
  | [] => 0
  | y :: rest => rest.getLastD y - y

/-- The moving-time formula as the specification states it: sum of the time
deltas of the consecutive sample pairs whose earlier sample moves faster
than 0.5 m/s. -/
def movingTimeClaimed (df : List Sample) : ℚ :=
  (((adjPairs df).filter (fun p => decide ((0.5 : ℚ) < (p.1.speed_m_s).getD 0))).map
    (fun p => p.2.timestamp - p.1.timestamp)).sum

/-- Empty aggregate bundle used for the concrete scenarios. -/
def exAgg : AggregateBundle := ([], [])

/-- Four-sample series: moving at t = 10 s and t = 20 s (speed 1 m/s),
stopped at t = 0 s and t = 30 s. -/
def exDf3 : List Sample :=
  [mkSample 0 none none none (some 0) none none none none none,
   mkSample 10 none none none (some 1) none none none none none,
   mkSample 20 none none none (some 1) none none none none none,
   mkSample 30 none none none (some 0) none none none none none]

/-- Two-sample series with no coordinates and no distances: both
reconstruction triggers fire on it. -/
def exDf6 : List Sample :=
  [mkSample 0 none none none none none none none none none,
   mkSample 10 none none none none none none none none none]

/-- Three-sample series with all distances absent and a mixed latitude
column: latitude 0° at t = 0 s and t = 20 s but absent at t = 10 s, all
longitudes 0°.  The latitude column holds floats, so the absent entry is a
float64 NaN, not None. -/
def exDf6b : List Sample :=
  [mkSample 0 (some 0) (some 0) none none none none none none none,
   mkSample 10 none (some 0) none none none none none none none,
   mkSample 20 (some 0) (some 0) none none none none none none none]

/-- Three-sample series for the speed pass: two samples share timestamp 0,
two of three speeds are absent, distances present. -/
def exDf7 : List Sample :=
  [mkSample 0 none none none (some 9) (some 0) none none none none,
   mkSample 0 none none none none (some 5) none none none none,
   mkSample 10 none none none none (some 25) none none none none]

/-- Two single-sample series that differ only in heart rate and
temperature. -/
def exDf2a : List Sample :=
  [mkSample 0 none none none (some 1) (some 10) (some 100) none none (some 20)]

/-- Companion of exDf2a with different heart rate and temperature. -/
def exDf2b : List Sample :=
  [mkSample 0 none none none (some 1) (some 10) (some 180) none none (some 35)]


/-! ## List-level lemmas -/

theorem adjPairs_nil {α : Type} : adjPairs ([] : List α) = [] := rfl

theorem adjPairs_single {α : Type} (a : α) : adjPairs [a] = [] := rfl

theorem adjPairs_cons₂ {α : Type} (a b : α) (l : List α) :
    adjPairs (a :: b :: l) = (a, b) :: adjPairs (b :: l) := rfl

theorem adjPairs_map {α β : Type} (g : α → β) :
    ∀ l : List α, adjPairs (l.map g) = (adjPairs l).map (fun p => (g p.1, g p.2)) := by
  intro l
  induction l with
  | nil => rfl
  | cons a l ih =>
      cases l with
      | nil => rfl
      | cons b t =>
          simp only [List.map_cons] at ih ⊢
          rw [adjPairs_cons₂, adjPairs_cons₂, List.map_cons, ih]

theorem adjPairs_mem {α : Type} :
    ∀ {l : List α} {p : α × α}, p ∈ adjPairs l → p.1 ∈ l ∧ p.2 ∈ l := by
  intro l
  induction l with
  | nil => intro p h; cases h
  | cons a l ih =>
      intro p h
      cases l with
      | nil => cases h
      | cons b t =>
          rw [adjPairs_cons₂] at h
          rcases List.mem_cons.mp h with h | h
          · subst h; exact ⟨List.mem_cons_self _ _, List.mem_cons_of_mem _ (List.mem_cons_self _ _)⟩
          · have := ih h
            exact ⟨List.mem_cons_of_mem _ this.1, List.mem_cons_of_mem _ this.2⟩

theorem adjPairs_chain {α : Type} {R : α → α → Prop} :
    ∀ {l : List α}, List.Chain' R l → ∀ p ∈ adjPairs l, R p.1 p.2 := by
  intro l
  induction l with
  | nil => intro _ p h; cases h
  | cons a l ih =>
      intro hc p h
      cases l with
      | nil => cases h
      | cons b t =>
          rw [adjPairs_cons₂] at h
          rw [List.chain'_cons] at hc
          rcases List.mem_cons.mp h with h | h
          · subst h; exact hc.1
          · exact ih hc.2 p h

theorem diffFill0_sum (y : ℚ) (rest : List ℚ) :
    (diffFill0 (y :: rest)).sum = rest.getLastD y - y := by
  induction rest generalizing y with
  | nil => simp [diffFill0, adjPairs_single]
  | cons b r ih =>
      have h := ih b
      simp only [diffFill0, adjPairs_cons₂, List.map_cons, List.sum_cons,
        List.getLastD_cons] at h ⊢
      linarith

/-! ## Work integrator: pandas pipeline versus the stated trapezoid -/

theorem zipWork_aux (l : List Sample) : ∀ a : Sample,
    (zipWith3 (fun p q t => ((p + q) / 2) * t)
        (l.map (fun s => (s.power_w).getD 0))
        (((a.power_w).getD 0 :: l.map (fun s => (s.power_w).getD 0)).dropLast)
        ((adjPairs (a.timestamp :: l.map (fun s => s.timestamp))).map
          (fun p => p.2 - p.1))).sum
      = trapWork (a :: l) := by
  induction l with
  | nil => intro a; simp [zipWith3, trapWork, adjPairs_single]
  | cons b r ih =>
      intro a
      have h := ih b
      simp only [List.map_cons, adjPairs_cons₂, List.dropLast_cons₂, zipWith3,
        List.sum_cons, trapWork, List.map_nil] at h ⊢
      rw [h]

theorem integrate_work_eq_trap (df : List Sample)
    (h : ¬(df = [] ∨ notnaCount (df.map (·.power_w)) < 2)) :
    integrate_work_joules df = trapWork df := by
  push_neg at h
  obtain ⟨a, l, rfl⟩ := List.exists_cons_of_ne_nil h.1
  unfold integrate_work_joules
  rw [if_neg (by push_neg; exact h)]
  simp only [List.map_map, Function.comp, List.map_cons, diffFill0, shiftFill0,
    zipWith3, List.sum_cons, add_zero, mul_zero, zero_add]
  exact zipWork_aux l a

/-- C5: the work integrator returns 0 exactly when fewer than two samples
carry power, and otherwise the trapezoidal sum over consecutive pairs with
absent power read as 0. -/
theorem integrate_work_spec (df : List Sample) :
    integrate_work_joules df =
      if 2 ≤ notnaCount (df.map (·.power_w)) then trapWork df else 0 := by
  by_cases h : 2 ≤ notnaCount (df.map (·.power_w))
  · rw [if_pos h]
    apply integrate_work_eq_trap
    push_neg
    constructor
    · intro e; subst e; simp [notnaCount] at h
    · omega
  · rw [if_neg h]
    unfold integrate_work_joules
    rw [if_pos (Or.inr (by omega))]

/-- C9: on a timestamp-sorted series whose power readings are all
non-negative, the work integrator cannot return a negative value. -/
theorem integrate_work_nonneg (df : List Sample)
    (hsort : List.Chain' (fun a b => a.timestamp ≤ b.timestamp) df)
    (hpow : ∀ s ∈ df, 0 ≤ (s.power_w).getD 0) :
    0 ≤ integrate_work_joules df := by
  rw [integrate_work_spec]
  split_ifs with h
  · apply List.sum_nonneg
    intro x hx
    simp only [trapWork, List.mem_map] at hx
    obtain ⟨p, hp, rfl⟩ := hx
    have hm := adjPairs_mem hp
    have hc := adjPairs_chain hsort p hp
    have h1 := hpow p.1 hm.1
    have h2 := hpow p.2 hm.2
    have hdt : (0 : ℚ) ≤ p.2.timestamp - p.1.timestamp := by linarith
    exact mul_nonneg (div_nonneg (add_nonneg h2 h1) (by norm_num)) hdt
  · exact le_refl 0

/-- Witness: the non-negativity theorem applied to the concrete sorted
series exDf9. -/
theorem integrate_work_nonneg_witness :
    List.Chain' (fun a b => a.timestamp ≤ b.timestamp) exDf9 ∧
    (∀ s ∈ exDf9, 0 ≤ (s.power_w).getD 0) ∧
    0 ≤ integrate_work_joules exDf9 :=
  ⟨by norm_num [exDf9, mkSample, List.chain'_cons],
   by norm_num [exDf9, mkSample],
   integrate_work_nonneg exDf9
     (by norm_num [exDf9, mkSample, List.chain'_cons])
     (by norm_num [exDf9, mkSample])⟩

/-! ## Speed reconstruction -/

theorem adjPairs_map_cons {α β : Type} (g : α → β) (a : α) (l : List α) :
    adjPairs (g a :: l.map g) = (adjPairs (a :: l)).map (fun p => (g p.1, g p.2)) := by
  have h := adjPairs_map g (a :: l)
  simpa using h

theorem speedReconSrc_eq (df : List Sample) (hne : df ≠ []) :
    speedReconSrc df = 0 :: (adjPairs df).map speedStep := by
  obtain ⟨a, l, rfl⟩ := List.exists_cons_of_ne_nil hne
  unfold speedReconSrc
  simp only [List.map_cons, diffFill0, optDiffFill0, adjPairs_map_cons,
    List.zipWith_cons_cons, List.map_map, List.zipWith_map_left,
    List.zipWith_map_right, List.zipWith_same, Function.comp]
  norm_num
  intro x y h
  rfl

/-- C7: when more than half the speed values are absent the speed column is
replaced with the reconstructed values, none of which is absent, and a pair
with zero time delta reconstructs to speed 0. -/
theorem speed_recon_total (df : List Sample) (htr : speedReconTrigger df) :
    speedAfterRecon df = (speedReconSrc df).map some ∧
    (∀ o ∈ speedAfterRecon df, o.isSome = true) ∧
    (df ≠ [] → speedReconSrc df = 0 :: (adjPairs df).map speedStep) ∧
    (∀ p ∈ adjPairs df, p.2.timestamp = p.1.timestamp → speedStep p = 0) := by
  have h1 : speedAfterRecon df = (speedReconSrc df).map some := by
    unfold speedAfterRecon; rw [if_pos htr]
  refine ⟨h1, ?_, fun hne => speedReconSrc_eq df hne, ?_⟩
  · intro o ho
    rw [h1] at ho
    simp only [List.mem_map] at ho
    obtain ⟨x, _, rfl⟩ := ho
    rfl
  · intro p _ h
    simp [speedStep, h]

/-- Witness: the speed pass on the concrete series exDf7 (two of three
speeds absent, duplicated timestamp). -/
theorem speed_recon_total_witness :
    speedReconTrigger exDf7 ∧
    speedAfterRecon exDf7 = (speedReconSrc exDf7).map some :=
  ⟨by decide, (speed_recon_total exDf7 (by decide)).1⟩

/-- C10: when the trigger fires, the whole speed column is overwritten with
the derived values: the first entry becomes 0 and the result is unchanged
under any modification of the previous speed values. -/
theorem speed_recon_overwrites (df : List Sample) (htr : speedReconTrigger df) :
    speedAfterRecon df = (speedReconSrc df).map some ∧
    (speedReconSrc df).head? = some 0 ∧
    ∀ f : Sample → Option ℚ,
      speedReconSrc (df.map (fun s => { s with speed_m_s := f s })) = speedReconSrc df := by
  have hne : df ≠ [] := by
    intro e; subst e
    simp [speedReconTrigger, naCount] at htr
  refine ⟨?_, ?_, ?_⟩
  · unfold speedAfterRecon; rw [if_pos htr]
  · rw [speedReconSrc_eq df hne]; rfl
  · intro f
    unfold speedReconSrc
    simp only [List.map_map]
    rfl

/-- Witness: the overwrite property on exDf7, whose first speed value was
present before the pass. -/
theorem speed_recon_overwrites_witness :
    speedReconTrigger exDf7 ∧
    (speedReconSrc exDf7).head? = some 0 ∧
    speedReconSrc (exDf7.map (fun s => { s with speed_m_s := some 7 })) =
      speedReconSrc exDf7 :=
  ⟨by decide, (speed_recon_overwrites exDf7 (by decide)).2.1,
    (speed_recon_overwrites exDf7 (by decide)).2.2 (fun _ => some 7)⟩

/-! ## Metrics calculator -/

/-- C8: the metrics calculator returns the sentinel no-data record exactly
on the empty series; every non-empty series yields a summary. -/
theorem compute_metrics_noData_iff (df : List Sample) (agg : AggregateBundle)
    (w e m : Option ℚ) :
    compute_metrics df agg w e m = .noData ↔ df = [] := by
  constructor
  · intro h
    by_contra hne
    rw [compute_metrics, if_neg hne] at h
    exact MetricsResult.noConfusion h
  · intro h
    subst h
    rw [compute_metrics, if_pos rfl]

/-- C3 (amended): the reported moving time is the round-to-one-decimal of
the span of the moving-filtered subsequence, its last timestamp minus its
first (0 when no sample moves). -/
theorem moving_time_eq_span (df : List Sample) (agg : AggregateBundle)
    (w e m : Option ℚ) (hne : df ≠ []) :
    (getSummary (compute_metrics df agg w e m)).map (·.moving_time_s)
      = some (pyRound 1 (movingSpan df)) := by
  rw [compute_metrics, if_neg hne]
  show some _ = some _
  congr 1
  show pyRound 1 ((diffFill0 ((df.filter
      (fun s => decide ((0.5 : ℚ) < (s.speed_m_s).getD 0))).map (·.timestamp))).sum)
    = pyRound 1 (movingSpan df)
  congr 1
  unfold movingSpan
  cases (df.filter (fun s => decide ((0.5 : ℚ) < (s.speed_m_s).getD 0))).map
      (·.timestamp) with
  | nil => simp [diffFill0]
  | cons y rest => rw [diffFill0_sum]

/-- Witness: the amended moving-time theorem applied to the concrete
series exDf3. -/
theorem moving_time_eq_span_witness :
    exDf3 ≠ [] ∧
    (getSummary (compute_metrics exDf3 exAgg none none none)).map (·.moving_time_s)
      = some (pyRound 1 (movingSpan exDf3)) :=
  ⟨by simp [exDf3], moving_time_eq_span exDf3 exAgg none none none (by simp [exDf3])⟩

/-- Counterexample to C3 as stated: on exDf3 the code reports 10 s of
moving time (the span between the two moving samples), while the claimed
sum over pairs with a moving earlier sample is 20 s. -/
theorem moving_time_counterexample :
    (getSummary (compute_metrics exDf3 exAgg none none none)).map (·.moving_time_s)
        = some 10 ∧
    movingTimeClaimed exDf3 = 20 ∧
    (getSummary (compute_metrics exDf3 exAgg none none none)).map (·.moving_time_s)
        ≠ some (pyRound 1 (movingTimeClaimed exDf3)) := by
  have h1 : (getSummary (compute_metrics exDf3 exAgg none none none)).map
      (·.moving_time_s) = some 10 := by
    rw [compute_metrics, if_neg (by simp [exDf3])]
    show some _ = some _
    congr 1
    norm_num [exDf3, mkSample, List.filter, diffFill0, adjPairs, pyRound, pyRoundInt]
  have h2 : movingTimeClaimed exDf3 = 20 := by
    norm_num [movingTimeClaimed, exDf3, mkSample, List.filter, adjPairs]
  refine ⟨h1, h2, ?_⟩
  rw [h1, h2]
  norm_num [pyRound, pyRoundInt]

/-- C4 (amended): the 20 % / 25 % reference range is populated exactly when
a nonzero muscular efficiency is supplied — and then independently of its
value — while an omitted efficiency leaves both the user-efficiency food
estimate and the reference range absent. -/
theorem calories_range_needs_muscle_eff (df : List Sample) (agg : AggregateBundle)
    (w e : Option ℚ) (hne : df ≠ []) :
    (getSummary (compute_metrics df agg w e none)).map (·.calories_food_est_range_kcal)
      = some none ∧
    (getSummary (compute_metrics df agg w e none)).map (·.calories_food_est_kcal)
      = some none ∧
    ∀ m : ℚ, m ≠ 0 →
      (getSummary (compute_metrics df agg w e (some m))).map
          (·.calories_food_est_range_kcal)
        = some (some (pyRound 1 ((integrate_work_joules df / 4184) / 0.20),
                      pyRound 1 ((integrate_work_joules df / 4184) / 0.25))) := by
  refine ⟨?_, ?_, ?_⟩
  · rw [compute_metrics, if_neg hne]
    rfl
  · rw [compute_metrics, if_neg hne]
    rfl
  · intro m hm
    rw [compute_metrics, if_neg hne]
    show some _ = some _
    congr 1
    simp [caloriesRangeOpt, truthy, hm]

/-- Witness: the range behaviour on the concrete series exDf1, with the
efficiency omitted and with the default 24 supplied. -/
theorem calories_range_needs_muscle_eff_witness :
    exDf1 ≠ [] ∧
    (getSummary (compute_metrics exDf1 exAgg none none none)).map
        (·.calories_food_est_range_kcal) = some none ∧
    (getSummary (compute_metrics exDf1 exAgg none none (some 24))).map
        (·.calories_food_est_range_kcal)
      = some (some (pyRound 1 ((integrate_work_joules exDf1 / 4184) / 0.20),
                    pyRound 1 ((integrate_work_joules exDf1 / 4184) / 0.25))) :=
  ⟨by simp [exDf1],
   (calories_range_needs_muscle_eff exDf1 exAgg none none (by simp [exDf1])).1,
   (calories_range_needs_muscle_eff exDf1 exAgg none none (by simp [exDf1])).2.2
     24 (by norm_num)⟩

/-- Counterexample to C4 as stated: with the muscular efficiency omitted the
reference range of the summary on exDf1 is absent, not populated. -/
theorem calories_range_counterexample :
    (getSummary (compute_metrics exDf1 exAgg (some 0.5) (some 82.5) none)).map
        (·.calories_food_est_range_kcal) = some none ∧
    (getSummary (compute_metrics exDf1 exAgg (some 0.5) (some 82.5) none)).map
        (·.calories_food_est_range_kcal) ≠ some (some (pyRound 1
          ((integrate_work_joules exDf1 / 4184) / 0.20),
          pyRound 1 ((integrate_work_joules exDf1 / 4184) / 0.25))) := by
  have h1 : (getSummary (compute_metrics exDf1 exAgg (some 0.5) (some 82.5) none)).map
      (·.calories_food_est_range_kcal) = some none := by
    rw [compute_metrics, if_neg (by simp [exDf1])]
    rfl
  exact ⟨h1, by rw [h1]; simp⟩

/-! ## Concrete scenario of the spec (C1) -/

/-- C1 (amended): on the two-sample scenario (descending 5 m, power absent
then 200 W) the elevation gain is 0 and the rider work is 0 J, because only
one of the two samples carries a power reading and the integrator requires
two. -/
theorem scenario_gain_work :
    positive_gain (exDf1.map (·.altitude_m)) = 0 ∧
    integrate_work_joules exDf1 = 0 ∧
    notnaCount (exDf1.map (·.power_w)) = 1 := by
  refine ⟨?_, ?_, ?_⟩
  · norm_num [positive_gain, exDf1, mkSample, seriesDiff, adjPairs, List.filter]
  · norm_num [integrate_work_joules, exDf1, mkSample, notnaCount]
  · norm_num [exDf1, mkSample, notnaCount]

/-- Counterexample to C1 as stated: on the scenario series the integrator
returns 0, not approximately 1000 J. -/
theorem scenario_work_counterexample :
    integrate_work_joules exDf1 = 0 ∧ integrate_work_joules exDf1 ≠ 1000 := by
  have h : integrate_work_joules exDf1 = 0 := by
    norm_num [integrate_work_joules, exDf1, mkSample, notnaCount]
  exact ⟨h, by rw [h]; norm_num⟩

/-! ## Heart rate and temperature never reach the summary (C2) -/

theorem integrate_work_map_clear (df : List Sample) :
    integrate_work_joules (df.map clearHrTemp) = integrate_work_joules df := by
  rcases eq_or_ne df [] with rfl | hne
  · rfl
  · have h1 : df.map clearHrTemp ≠ [] := by simpa using hne
    unfold integrate_work_joules
    refine if_congr ?_ rfl ?_
    · constructor
      · rintro (h | h)
        · exact absurd h h1
        · right
          rw [List.map_map] at h
          exact h
      · rintro (h | h)
        · exact absurd h hne
        · right
          rw [List.map_map]
          exact h
    · simp only [List.map_map]
      rfl

/-- C2: the summary record is entirely insensitive to the heart-rate and
temperature columns — erasing both columns leaves the output of the metrics
calculator unchanged, so no field of the summary carries the heart-rate or
temperature aggregates. -/
theorem compute_metrics_ignores_hr_temp (df : List Sample) (agg : AggregateBundle)
    (w e m : Option ℚ) :
    compute_metrics (df.map clearHrTemp) agg w e m = compute_metrics df agg w e m := by
  rcases eq_or_ne df [] with rfl | hne
  · rfl
  · have h1 : df.map clearHrTemp ≠ [] := by simpa using hne
    rw [compute_metrics, compute_metrics, if_neg h1, if_neg hne]
    simp only [integrate_work_map_clear, List.map_map, List.filter_map,
      List.filterMap_map]
    rfl

/-! ## Distance reconstruction (C6) -/

/-- C6 (code bug): the claim repeats the documented contract — a step with
a missing coordinate contributes 0, so the rebuilt column starts at 0 and
never decreases — but the code only upholds it when the coordinate columns
are entirely absent.  On exDf6b (all distances absent, latitude present at
two of three samples) the absent latitude is read from the float64 column
as NaN; line 52's `None in (...)` check does not fire, the NaN flows
through the trigonometry, `(d or 0.0)` keeps it, and the running sum turns
that step and every later cumulative distance into NaN: the column is
[0, NaN, NaN] where the claim requires [0, 0, haversine step].  On the
fully coordinate-free exDf6 the object-column None read does hit the check
and the column is [0, 0] as the claim describes. -/
theorem distance_recon_nan_poison :
    distanceReconTrigger exDf6b ∧
    distanceAfterRecon exDf6b = [some 0, none, none] ∧
    distanceReconTrigger exDf6 ∧
    distanceAfterRecon exDf6 = [some 0, some 0] := by
  refine ⟨by decide, ?_, by decide, ?_⟩
  · rw [distanceAfterRecon, if_pos (by decide)]
    norm_num [reconDistances, exDf6b, mkSample, adjPairs_cons₂, adjPairs_single,
      List.scanl, havStep, pyAt, haversine_m, isPyNone, isNaN, nanAdd, List.all]
  · rw [distanceAfterRecon, if_pos (by decide)]
    norm_num [reconDistances, exDf6, mkSample, adjPairs_cons₂, adjPairs_single,
      List.scanl, havStep, pyAt, haversine_m, isPyNone, isNaN, nanAdd, List.all]
